import Mathlib

/-!
Shallow embedding of the resilient remote-call orchestrator from
`src/MCP_llama.py`: configuration constants, the in-memory cache
(`get_from_cache` / `save_to_cache`), the `rate_limit` decorator, the
`retry_on_quota_error` decorator with its textual failure classifier,
the orchestrated `get_ai_response`, the fallback generator and `main`.

Modelling conventions:
* Timestamps and delays are rationals (`ℚ`); `time.sleep d` advances the
  clock by exactly `d` (an idealised zero-cost execution model in which
  only sleeps consume time).
* Python exceptions become `Except` values; the distinguished
  `QuotaExceededError` class is a separate constructor of `PyError`.
* The cache dict becomes an association list from key to
  (insertion timestamp, response).
* The external agent (`agent.chat`) is an abstract function from the
  invocation index (how many remote calls happened before) to a result,
  so that successive remote attempts may succeed or fail independently,
  exactly as the wrapped Python call may.
-/

/-- Configuration constant `MAX_RETRIES = 3` (src/MCP_llama.py line 18). -/
def MAX_RETRIES : Nat := 3

/-- Configuration constant `RETRY_DELAY = 2` seconds (line 19). -/
def RETRY_DELAY : ℚ := 2

/-- Configuration constant `CACHE_EXPIRE_TIME = 3600` seconds (line 20). -/
def CACHE_EXPIRE_TIME : ℚ := 3600

/-- Configuration constant `RATE_LIMIT_DELAY = 1` second (line 21). -/
def RATE_LIMIT_DELAY : ℚ := 1

/-- Python exception values as the orchestrator distinguishes them:
`PyError.exc msg` is a generic `Exception` carrying its message, and
`PyError.quotaExceeded msg` is the dedicated `QuotaExceededError` class
(lines 96-97). -/
inductive PyError where
  | exc (msg : String)
  | quotaExceeded (msg : String)
  deriving DecidableEq

/-- Lowercase one character, as Python `str.lower` does on ASCII. -/
def charLower (c : Char) : Char :=
  if 65 ≤ c.toNat ∧ c.toNat ≤ 90 then Char.ofNat (c.toNat + 32) else c

/-- Whether `pat` occurs at the very front of `l`. -/
def matchesFront : List Char → List Char → Bool
  | [], _ => true
  | _ :: _, [] => false
  | a :: as, b :: bs => a == b && matchesFront as bs

/-- Whether `pat` occurs as a contiguous subsequence of `l`
(Python `pat in l` on strings). -/
def containsSeq (pat : List Char) : List Char → Bool
  | [] => pat.isEmpty
  | b :: bs => matchesFront pat (b :: bs) || containsSeq pat bs

/-- Python `term in str(e).lower()`: substring test on the lowercased
error message. -/
def msgContains (msg term : String) : Bool :=
  containsSeq term.toList (msg.toList.map charLower)

/-- The quota/rate-limit marker substrings of line 78. -/
def quotaTerms : List String :=
  ["quota", "rate limit", "too many requests", "insufficient quota"]

/-- The retry classifier of lines 75-78: a failure is retried exactly when
the lowercased message contains one of the `quotaTerms`. -/
def isRetryable (msg : String) : Bool :=
  quotaTerms.any (fun term => msgContains msg term)

/-- The in-memory cache (line 24): an association list from cache key to
(insertion timestamp, cached response), standing for the Python dict. -/
abbrev CacheMap : Type := List (String × ℚ × String)

/-- `get_cache_key` (lines 45-47) computes `hashlib.md5(text.encode()).hexdigest()`.
The MD5 digest is an external library call; we model the fingerprint
abstractly as the text itself — like the digest it is a pure, deterministic
function of the request text, which is the only property the orchestrator
relies on. -/
def get_cache_key (text : String) : String := text

/-- `get_from_cache` (lines 49-58) evaluated at clock `now`: on a key
present with `now - timestamp < CACHE_EXPIRE_TIME` it returns the stored
response and leaves the cache unchanged; on a key present but expired it
deletes the entry and reports absence; on a missing key it reports
absence. Returns (lookup result, cache after the call). -/
def get_from_cache (now : ℚ) (cache : CacheMap) (key : String) :
    Option String × CacheMap :=
  match List.lookup key cache with
  | some (timestamp, response) =>
      if now - timestamp < CACHE_EXPIRE_TIME then
        (some response, cache)
      else
        (none, List.filter (fun p => p.1 != key) cache)
  | none => (none, cache)

/-- `save_to_cache` (lines 60-62) evaluated at clock `now`: overwrites any
entry for `key` with `(now, response)`. -/
def save_to_cache (now : ℚ) (cache : CacheMap) (key response : String) :
    CacheMap :=
  (key, now, response) :: List.filter (fun p => p.1 != key) cache

/-- The `rate_limit` decorator body (lines 26-43) as a clock transition:
given the current clock `now` and the shared `last_call` cell, it sleeps
for `RATE_LIMIT_DELAY - (now - last_call)` when `now - last_call <
RATE_LIMIT_DELAY` and otherwise not at all, then stores the post-sleep
clock into `last_call` and proceeds. Returns
(time slept, clock when the wrapped call is issued, new `last_call`). -/
def rate_limit_gate (now last_call : ℚ) : ℚ × ℚ × ℚ :=
  let time_since_last := now - last_call
  if time_since_last < RATE_LIMIT_DELAY then
    let sleep_time := RATE_LIMIT_DELAY - time_since_last
    (sleep_time, now + sleep_time, now + sleep_time)
  else
    (0, now, now)

/-- The clock at which each permitted call is issued when calls arriving at
the clocks in `arrivals` pass `rate_limit_gate` one after the other,
starting from the shared cell holding `last0`. -/
def issue_times (last0 : ℚ) : List ℚ → List ℚ
  | [] => []
  | t :: ts =>
      let issued := (rate_limit_gate t last0).2.1
      issued :: issue_times issued ts

/-- Everything one run of the `retry_on_quota_error` wrapper (lines 64-94)
produces: the outcome seen by the caller, the final world state, the sleeps
performed between attempts (in order), and how many times the wrapped
function was invoked. -/
structure RetryResult (σ : Type) where
  result : Except PyError String
  state : σ
  delays : List ℚ
  attempts : Nat

/-- The `for attempt in range(MAX_RETRIES)` loop of `retry_on_quota_error`
(lines 67-92), generic in the world state `σ` threaded through the wrapped
function and in the sleep action `slp`. `attempt` is the loop index,
`fuel` the remaining iterations, `last` the current `last_exception`.
On a success the value is returned; on a failure whose message satisfies
`isRetryable` the loop sleeps `baseDelay * 2 ^ attempt` and retries while
`attempt < maxRetries - 1`, and on the final attempt raises the dedicated
`QuotaExceededError`; any other failure is re-raised unchanged at once.
The `fuel = 0` case is the fall-through `raise last_exception` of line 92. -/
def retryGo {σ : Type} (slp : ℚ → σ → σ) (op : σ → Except String String × σ)
    (maxRetries : Nat) (baseDelay : ℚ) :
    Nat → Nat → Option String → σ → RetryResult σ
  | _, 0, last, s =>
      ⟨Except.error (PyError.exc (last.getD "TypeError: raise of None")), s, [], 0⟩
  | attempt, fuel + 1, _, s =>
      match op s with
      | (Except.ok v, s1) => ⟨Except.ok v, s1, [], 1⟩
      | (Except.error msg, s1) =>
          if isRetryable msg then
            if attempt < maxRetries - 1 then
              let delay := baseDelay * 2 ^ attempt
              let rest := retryGo slp op maxRetries baseDelay (attempt + 1) fuel
                            (some msg) (slp delay s1)
              ⟨rest.result, rest.state, delay :: rest.delays, rest.attempts + 1⟩
            else
              ⟨Except.error
                 (PyError.quotaExceeded "API quota exceeded after multiple retries"),
               s1, [], 1⟩
          else
            ⟨Except.error (PyError.exc msg), s1, [], 1⟩

/-- The `retry_on_quota_error` decorator (lines 64-94) applied to a wrapped
function `op`, with the source constants `MAX_RETRIES` and `RETRY_DELAY`. -/
def retry_on_quota_error {σ : Type} (slp : ℚ → σ → σ)
    (op : σ → Except String String × σ) (s : σ) : RetryResult σ :=
  retryGo slp op MAX_RETRIES RETRY_DELAY 0 MAX_RETRIES none s

/-- The retry wrapper run over a stateless world in which the state is just
the number of invocations made so far and sleeping does nothing, so the
`n`-indexed function `f` describes what the `n`-th invocation does. Used to
study the retry policy in isolation. -/
def retry_policy (f : Nat → Except String String) : RetryResult Nat :=
  retry_on_quota_error (fun _ n => n) (fun n => (f n, n + 1)) 0

/-- The world threaded through `get_ai_response`: the clock, the shared
`last_call` cell of `rate_limit`, the shared `cache` dict, and how many
times `agent.chat` has been invoked. -/
structure OrchState where
  now : ℚ
  last_call : ℚ
  cache : CacheMap
  remote_calls : Nat

/-- `time.sleep` on the orchestrator world: the clock advances by `d`. -/
def orchSleep (d : ℚ) (s : OrchState) : OrchState :=
  { s with now := s.now + d }

/-- Python truthiness of the `Optional[str]` that the cache lookup yields:
the `if cached_response:` test of line 160 is false both for `None` and
for the empty string. -/
def truthy : Option String → Bool
  | none => false
  | some t => t != ""

/-- The undecorated body of `get_ai_response` (lines 152-167): raise when
the agent is unavailable, otherwise compute the cache key, consult the
cache (which may evict an expired entry), return the cached value when the
`if cached_response:` truthiness test passes (so a `None` result and an
empty cached string are both misses), and otherwise call `agent.chat` and
cache a successful response. The abstract agent `chat` maps the invocation
index to the outcome of that invocation. -/
def get_ai_response_raw (agent : Option (Nat → Except String String))
    (query : String) (s : OrchState) : Except String String × OrchState :=
  match agent with
  | none => (Except.error "OpenAI agent not available", s)
  | some chat =>
      let cache_key := get_cache_key query
      let looked := get_from_cache s.now s.cache cache_key
      if truthy looked.1 then
        (Except.ok (looked.1.getD ""), { s with cache := looked.2 })
      else
        match chat s.remote_calls with
        | Except.ok response =>
            (Except.ok response,
             { s with
                 cache := save_to_cache s.now looked.2 cache_key response,
                 remote_calls := s.remote_calls + 1 })
        | Except.error msg =>
            (Except.error msg,
             { s with cache := looked.2, remote_calls := s.remote_calls + 1 })

/-- The decorated `get_ai_response` (lines 150-167):
`rate_limit(retry_on_quota_error(body))` — the rate-limiter gate is the
outermost wrapper, so it runs first, stores the post-wait clock into
`last_call`, and only then hands over to the retry loop around the body. -/
def get_ai_response (agent : Option (Nat → Except String String))
    (query : String) (s : OrchState) : RetryResult OrchState :=
  let gate := rate_limit_gate s.now s.last_call
  let s1 : OrchState := { s with now := gate.2.1, last_call := gate.2.2 }
  retry_on_quota_error orchSleep (get_ai_response_raw agent query) s1

/-- `get_fallback_response` (lines 169-171): a constant canned text,
independent of its argument. -/
def get_fallback_response (_query : String) : String :=
  "I apologize, but I\x27m currently experiencing high demand. For weather information, I can tell you that most cities are experiencing typical seasonal weather. For document searches, please try again in a few minutes when the service is available."

/-- The fixed query of `main` (line 175). -/
def main_query : String :=
  "What\x27s the weather in Paris and what do the documents say about revenue?"

/-- What the user sees at the end of `main` (lines 181-194): a normal AI
response, the quota-fallback branch, or the generic-error branch that
prints the error and then also prints a fallback response. -/
inductive MainOutcome where
  | aiResponse (response : String)
  | quotaFallback (fallback : String)
  | errorFallback (errMsg : String) (fallback : String)
  deriving DecidableEq

/-- The `try/except` dispatch of `main` (lines 181-194): a success prints
the response; `QuotaExceededError` prints the quota notice and a fallback
response; every other exception prints the error and then also a fallback
response. -/
def main_handle (res : Except PyError String) (query : String) : MainOutcome :=
  match res with
  | Except.ok response => MainOutcome.aiResponse response
  | Except.error (PyError.quotaExceeded _) =>
      MainOutcome.quotaFallback (get_fallback_response query)
  | Except.error (PyError.exc msg) =>
      MainOutcome.errorFallback msg (get_fallback_response query)

/-- Whether an outcome of `main` involved the fallback generator. -/
def fallbackInvoked : MainOutcome → Bool
  | MainOutcome.aiResponse _ => false
  | MainOutcome.quotaFallback _ => true
  | MainOutcome.errorFallback _ _ => true

/-- `main` (lines 173-194) on a given agent and initial world: issue the
fixed query through `get_ai_response` and dispatch on the result. -/
def run_main (agent : Option (Nat → Except String String)) (s : OrchState) :
    MainOutcome :=
  main_handle (get_ai_response agent main_query s).result main_query

/-- The retry wrapper generalised over the two configuration constants,
used to state schedule properties for arbitrary `max_attempts` and
`base_delay`; `retry_policy f = retry_policy_with MAX_RETRIES RETRY_DELAY f`. -/
def retry_policy_with (m : Nat) (b : ℚ) (f : Nat → Except String String) :
    RetryResult Nat :=
  retryGo (fun _ n => n) (fun n => (f n, n + 1)) m b 0 m none 0

/-- A world in which the previous permitted call went out at clock 100 and
the cache holds a still-fresh response "resp" for query "q", inserted at
clock 99. A new call arriving at clock 100 is inside the rate-limit
spacing window. -/
def hitState : OrchState := ⟨100, 100, [("q", 99, "resp")], 0⟩

/-- An agent whose remote call always succeeds with "fresh". -/
def freshAgent : Option (Nat → Except String String) :=
  some (fun _ => Except.ok "fresh")

/-- An agent whose remote call always fails with a non-quota error. -/
def connRefusedAgent : Option (Nat → Except String String) :=
  some (fun _ => Except.error "connection refused")

/-- An initial world: clock 1000, no recent call, empty cache. -/
def initState : OrchState := ⟨1000, 0, [], 0⟩

section RetryLemmas

variable {σ : Type} (slp : ℚ → σ → σ) (op : σ → Except String String × σ)
  (m : Nat) (b : ℚ)

/-- One loop iteration, success case: the value is returned at once. -/
theorem retryGo_step_ok (a fuel : Nat) (last : Option String) (s : σ)
    (v : String) (s1 : σ) (hop : op s = (Except.ok v, s1)) :
    retryGo slp op m b a (fuel + 1) last s = ⟨Except.ok v, s1, [], 1⟩ := by
  simp [retryGo, hop]

/-- One loop iteration, non-retryable failure: re-raised unchanged, no
sleep, no further attempt. -/
theorem retryGo_step_nonretryable (a fuel : Nat) (last : Option String)
    (s : σ) (msg : String) (s1 : σ) (hop : op s = (Except.error msg, s1))
    (hmsg : isRetryable msg = false) :
    retryGo slp op m b a (fuel + 1) last s =
      ⟨Except.error (PyError.exc msg), s1, [], 1⟩ := by
  simp [retryGo, hop, hmsg]

/-- One loop iteration, retryable failure with attempts left: sleep
`b * 2 ^ a` and run the rest of the loop. -/
theorem retryGo_step_retry (a fuel : Nat) (last : Option String) (s : σ)
    (msg : String) (s1 : σ) (hop : op s = (Except.error msg, s1))
    (hmsg : isRetryable msg = true) (ha : a < m - 1) :
    retryGo slp op m b a (fuel + 1) last s =
      let rest := retryGo slp op m b (a + 1) fuel (some msg) (slp (b * 2 ^ a) s1)
      ⟨rest.result, rest.state, b * 2 ^ a :: rest.delays, rest.attempts + 1⟩ := by
  simp [retryGo, hop, hmsg, ha]

/-- One loop iteration, retryable failure on the final attempt: the
dedicated `QuotaExceededError` is raised. -/
theorem retryGo_step_exhausted (a fuel : Nat) (last : Option String)
    (s : σ) (msg : String) (s1 : σ) (hop : op s = (Except.error msg, s1))
    (hmsg : isRetryable msg = true) (ha : ¬a < m - 1) :
    retryGo slp op m b a (fuel + 1) last s =
      ⟨Except.error (PyError.quotaExceeded "API quota exceeded after multiple retries"),
       s1, [], 1⟩ := by
  simp [retryGo, hop, hmsg, ha]

/-- The loop invokes the wrapped function at most `fuel` times. -/
theorem retryGo_attempts_le :
    ∀ (fuel a : Nat) (last : Option String) (s : σ),
      (retryGo slp op m b a fuel last s).attempts ≤ fuel := by
  intro fuel
  induction fuel with
  | zero => intro a last s; simp [retryGo]
  | succ k ih =>
      intro a last s
      rcases hop : op s with ⟨r, s1⟩
      rcases r with msg | v
      · by_cases hmsg : isRetryable msg
        · by_cases ha : a < m - 1
          · rw [retryGo_step_retry slp op m b a k last s msg s1 hop hmsg ha]
            have := ih (a + 1) (some msg) (slp (b * 2 ^ a) s1)
            simpa using Nat.succ_le_succ this
          · rw [retryGo_step_exhausted slp op m b a k last s msg s1 hop hmsg ha]
            simp
        · rw [retryGo_step_nonretryable slp op m b a k last s msg s1 hop
              (Bool.not_eq_true _ ▸ hmsg)]
          simp
      · rw [retryGo_step_ok slp op m b a k last s v s1 hop]
        simp

/-- The loop invokes the wrapped function at least once when it has fuel. -/
theorem retryGo_attempts_pos (fuel a : Nat) (last : Option String) (s : σ)
    (h : 1 ≤ fuel) :
    1 ≤ (retryGo slp op m b a fuel last s).attempts := by
  obtain ⟨k, rfl⟩ : ∃ k, fuel = k + 1 := ⟨fuel - 1, by omega⟩
  rcases hop : op s with ⟨r, s1⟩
  rcases r with msg | v
  · by_cases hmsg : isRetryable msg
    · by_cases ha : a < m - 1
      · rw [retryGo_step_retry slp op m b a k last s msg s1 hop hmsg ha]
        simp
      · rw [retryGo_step_exhausted slp op m b a k last s msg s1 hop hmsg ha]
    · rw [retryGo_step_nonretryable slp op m b a k last s msg s1 hop
          (Bool.not_eq_true _ ▸ hmsg)]
  · rw [retryGo_step_ok slp op m b a k last s v s1 hop]

end RetryLemmas

/-- A run of the retry loop, starting at attempt `a` in state `a`, in which
every invoked attempt fails with a retryable message: it consumes all its
fuel sleeping the exponential schedule and ends in the dedicated
`QuotaExceededError`. -/
theorem retryGo_all_retryable (f : Nat → Except String String) (m : Nat) (b : ℚ)
    (hf : ∀ i, i < m → ∃ msg, f i = Except.error msg ∧ isRetryable msg = true) :
    ∀ (fuel a : Nat) (last : Option String), a + fuel = m → 1 ≤ fuel →
    retryGo (fun _ n => n) (fun n => (f n, n + 1)) m b a fuel last a =
      ⟨Except.error (PyError.quotaExceeded "API quota exceeded after multiple retries"),
       m, List.map (fun i => b * 2 ^ i) (List.range' a (fuel - 1)), fuel⟩ := by
  intro fuel
  induction fuel with
  | zero => intro a last hsum h1; omega
  | succ k ih =>
      intro a last hsum _
      obtain ⟨msg, hmsg, hret⟩ := hf a (by omega)
      have hop : (fun n => (f n, n + 1)) a = (Except.error msg, a + 1) := by
        simp [hmsg]
      by_cases hk : k = 0
      · subst hk
        have ha : ¬a < m - 1 := by omega
        rw [retryGo_step_exhausted (fun _ n => n) (fun n => (f n, n + 1)) m b
            a 0 last a msg (a + 1) hop hret ha]
        have : a + 1 = m := by omega
        simp [this]
      · have ha : a < m - 1 := by omega
        rw [retryGo_step_retry (fun _ n => n) (fun n => (f n, n + 1)) m b
            a k last a msg (a + 1) hop hret ha]
        have hrest := ih (a + 1) (some msg) (by omega) (by omega)
        simp only [hrest]
        have hk1 : k - 1 + 1 = k := by omega
        have hrange : List.range' a k = a :: List.range' (a + 1) (k - 1) := by
          rw [← hk1, List.range'_succ a (k - 1) 1, hk1]
        simp [hrange]

/-- Deleting a key from the cache dict: the deleted key is no longer
found. -/
theorem lookup_filter_self (key : String) :
    ∀ c : CacheMap,
      List.lookup key (List.filter (fun p => p.1 != key) c) = none := by
  intro c
  induction c with
  | nil => rfl
  | cons hd tl ih =>
      rcases hd with ⟨k1, val⟩
      by_cases h : k1 = key
      · subst h
        simpa [List.filter_cons] using ih
      · simp only [List.filter_cons]
        have hb : ((k1, val).1 != key) = true := by simpa [bne_iff_ne] using h
        rw [hb]
        simp only [if_true]
        rw [List.lookup]
        have hkey : (key == k1) = false := by simpa using Ne.symm h
        rw [hkey]
        exact ih

/-- The sum of a function mapped over an initial segment, as a `Finset`
sum. -/
theorem sum_map_range (f : Nat → ℚ) :
    ∀ n, (List.map f (List.range n)).sum = ∑ i ∈ Finset.range n, f i := by
  intro n
  induction n with
  | zero => simp
  | succ k ih => simp [List.range_succ, Finset.sum_range_succ, ih]

/-- Each pass through the rate-limiter gate issues its call no earlier
than `min_interval` after the previous issue time stored in `last_call`. -/
theorem rate_limit_gate_spacing (now last_call : ℚ) :
    last_call + RATE_LIMIT_DELAY ≤ (rate_limit_gate now last_call).2.1 := by
  unfold rate_limit_gate
  by_cases h : now - last_call < RATE_LIMIT_DELAY
  · simp only [h, if_true]
    linarith
  · simp only [h, if_false]
    linarith [not_lt.mp h]

/-- C3: in a run of the retry policy in which every attempt fails with a
retryable error, the delay inserted after the n-th failed attempt
(1-indexed, n < max_attempts) is `base_delay * 2 ^ (n - 1)`, no delay
follows the final attempt (the delay list has `max_attempts - 1` entries),
and the total wait before the terminal `QuotaExceededError` is
`base_delay * (2 ^ 0 + 2 ^ 1 + ... + 2 ^ (max_attempts - 2))`. -/
theorem C3_backoff_schedule (m : Nat) (b : ℚ) (f : Nat → Except String String)
    (hm : 1 ≤ m)
    (hf : ∀ i, i < m → ∃ msg, f i = Except.error msg ∧ isRetryable msg = true) :
    (retry_policy_with m b f).delays =
      List.map (fun i => b * 2 ^ i) (List.range (m - 1)) ∧
    (∀ n, 1 ≤ n → n < m →
      (retry_policy_with m b f).delays[n - 1]? = some (b * 2 ^ (n - 1))) ∧
    (retry_policy_with m b f).delays.length = m - 1 ∧
    (retry_policy_with m b f).result =
      Except.error (PyError.quotaExceeded "API quota exceeded after multiple retries") ∧
    (retry_policy_with m b f).delays.sum = ∑ i ∈ Finset.range (m - 1), b * 2 ^ i := by
  have h := retryGo_all_retryable f m b hf m 0 none (by omega) hm
  have h' : retry_policy_with m b f =
      ⟨Except.error (PyError.quotaExceeded "API quota exceeded after multiple retries"),
       m, List.map (fun i => b * 2 ^ i) (List.range (m - 1)), m⟩ := by
    unfold retry_policy_with
    rw [h, List.range_eq_range']
  refine ⟨by rw [h'], ?_, by rw [h']; simp, by rw [h'], ?_⟩
  · intro n h1 hn
    rw [h']
    have hlt : n - 1 < m - 1 := by omega
    simp [List.getElem?_map, List.getElem?_range hlt]
  · rw [h']
    exact sum_map_range _ _

/-- Witness for C3 at the source constants `MAX_RETRIES = 3`,
`RETRY_DELAY = 2`: the delays are `[2, 4]`, totalling `6`, before the
terminal `QuotaExceededError`. -/
theorem C3_backoff_schedule_witness :
    (retry_policy_with 3 2 (fun _ => Except.error "quota")).delays = [2, 4] ∧
    (retry_policy_with 3 2 (fun _ => Except.error "quota")).delays.sum = 6 ∧
    (retry_policy_with 3 2 (fun _ => Except.error "quota")).result =
      Except.error (PyError.quotaExceeded "API quota exceeded after multiple retries") := by
  have h := C3_backoff_schedule 3 2 (fun _ => Except.error "quota") (by omega)
    (fun i _ => ⟨"quota", rfl, by decide⟩)
  refine ⟨?_, ?_, h.2.2.2.1⟩
  · rw [h.1]
    norm_num [show List.range 2 = [0, 1] from rfl]
  · rw [h.2.2.2.2]
    norm_num [Finset.sum_range_succ]

/-- C4: every run of the retry wrapper invokes the wrapped call at most
`MAX_RETRIES` times, and when every attempt fails with a retryable error
the run terminates in the dedicated `QuotaExceededError` — never a silent
success and never the underlying provider exception. -/
theorem C4_retry_cap :
    (∀ (σ : Type) (slp : ℚ → σ → σ) (op : σ → Except String String × σ) (s : σ),
        (retry_on_quota_error slp op s).attempts ≤ MAX_RETRIES) ∧
    (∀ (m : Nat) (b : ℚ) (f : Nat → Except String String), 1 ≤ m →
        (∀ i, i < m → ∃ msg, f i = Except.error msg ∧ isRetryable msg = true) →
        (retry_policy_with m b f).attempts = m ∧
        (retry_policy_with m b f).result =
          Except.error (PyError.quotaExceeded "API quota exceeded after multiple retries") ∧
        (∀ v, (retry_policy_with m b f).result ≠ Except.ok v) ∧
        (∀ msg, (retry_policy_with m b f).result ≠
          Except.error (PyError.exc msg))) := by
  constructor
  · intro σ slp op s
    exact retryGo_attempts_le slp op MAX_RETRIES RETRY_DELAY MAX_RETRIES 0 none s
  · intro m b f hm hf
    have h := retryGo_all_retryable f m b hf m 0 none (by omega) hm
    unfold retry_policy_with
    rw [h]
    refine ⟨rfl, rfl, ?_, ?_⟩ <;> intro x <;> simp

/-- Witness for C4: three retryable failures end in `QuotaExceededError`
after exactly 3 attempts. -/
theorem C4_retry_cap_witness :
    (retry_policy_with 3 2 (fun _ => Except.error "rate limit hit")).attempts = 3 ∧
    (retry_policy_with 3 2 (fun _ => Except.error "rate limit hit")).result =
      Except.error (PyError.quotaExceeded "API quota exceeded after multiple retries") := by
  have h := C4_retry_cap.2 3 2 (fun _ => Except.error "rate limit hit") (by omega)
    (fun i _ => ⟨"rate limit hit", rfl, by decide⟩)
  exact ⟨h.1, h.2.1⟩

/-- C5: an attempt failing with a NonRetryable error propagates to the
caller unchanged and immediately: exactly one attempt, an empty delay
list, and the original message in a generic exception. -/
theorem C5_nonretryable_immediate (σ : Type) (slp : ℚ → σ → σ)
    (op : σ → Except String String × σ) (s : σ) (msg : String) (s1 : σ)
    (hop : op s = (Except.error msg, s1)) (hmsg : isRetryable msg = false) :
    retry_on_quota_error slp op s =
      ⟨Except.error (PyError.exc msg), s1, [], 1⟩ :=
  retryGo_step_nonretryable slp op MAX_RETRIES RETRY_DELAY 0 2 none s msg s1 hop hmsg

/-- Witness for C5: a "connection refused" failure propagates unchanged
after one attempt with no delay. -/
theorem C5_nonretryable_immediate_witness :
    retry_on_quota_error (fun _ n => n)
        (fun n : Nat => (Except.error "connection refused", n + 1)) 0 =
      ⟨Except.error (PyError.exc "connection refused"), 1, [], 1⟩ :=
  C5_nonretryable_immediate Nat (fun _ n => n) _ 0 "connection refused" 1 rfl (by decide)

/-- C6: a cache lookup on an entry aged `>= ttl` treats it as absent and
removes it from the store before returning; on an entry aged `< ttl` it
returns the stored value and leaves the cache unchanged; and no expired
entry is ever returned. -/
theorem C6_cache_expiration (now : ℚ) (c : CacheMap) (key : String) :
    (∀ ts resp, List.lookup key c = some (ts, resp) →
      ((CACHE_EXPIRE_TIME ≤ now - ts →
          (get_from_cache now c key).1 = none ∧
          List.lookup key (get_from_cache now c key).2 = none) ∧
        (now - ts < CACHE_EXPIRE_TIME →
          get_from_cache now c key = (some resp, c)))) ∧
    (∀ r, (get_from_cache now c key).1 = some r →
      ∃ ts, List.lookup key c = some (ts, r) ∧ now - ts < CACHE_EXPIRE_TIME) := by
  constructor
  · intro ts resp hl
    constructor
    · intro hexp
      have hnot : ¬(now - ts < CACHE_EXPIRE_TIME) := not_lt.mpr hexp
      unfold get_from_cache
      rw [hl]
      simp only [hnot, if_false]
      exact ⟨trivial, lookup_filter_self key c⟩
    · intro hfresh
      unfold get_from_cache
      rw [hl]
      simp [hfresh]
  · intro r hr
    unfold get_from_cache at hr
    rcases hl : List.lookup key c with _ | ⟨ts, resp⟩
    · rw [hl] at hr
      simp at hr
    · rw [hl] at hr
      by_cases hfresh : now - ts < CACHE_EXPIRE_TIME
      · simp [hfresh] at hr
        exact ⟨ts, by simp [hr], hfresh⟩
      · simp [hfresh] at hr

/-- Witness for C6: an entry inserted at clock 0 is evicted when queried
at clock 4000 (past the 3600-second ttl) and served when queried at
clock 500. -/
theorem C6_cache_expiration_witness :
    (get_from_cache 4000 [("k", 0, "v")] "k").1 = none ∧
    List.lookup "k" (get_from_cache 4000 [("k", 0, "v")] "k").2 = none ∧
    get_from_cache 500 [("k", 0, "v")] "k" = (some "v", [("k", 0, "v")]) := by
  have h1 := ((C6_cache_expiration 4000 [("k", 0, "v")] "k").1 0 "v" rfl).1
    (by norm_num [CACHE_EXPIRE_TIME])
  have h2 := ((C6_cache_expiration 500 [("k", 0, "v")] "k").1 0 "v" rfl).2
    (by norm_num [CACHE_EXPIRE_TIME])
  exact ⟨h1.1, h1.2, h2⟩

/-- C7: each acquire computes `wait = min_interval - (now - last_call)`,
suspends for exactly `wait` when `wait > 0` and proceeds immediately
otherwise, stores the post-wait clock into `last_call`, and consequently
the issue times of successive permitted calls are separated by at least
`min_interval`. -/
theorem C7_rate_limiter_spacing :
    (∀ now last_call : ℚ,
      (0 < RATE_LIMIT_DELAY - (now - last_call) →
        rate_limit_gate now last_call =
          (RATE_LIMIT_DELAY - (now - last_call),
           now + (RATE_LIMIT_DELAY - (now - last_call)),
           now + (RATE_LIMIT_DELAY - (now - last_call)))) ∧
      (RATE_LIMIT_DELAY - (now - last_call) ≤ 0 →
        rate_limit_gate now last_call = (0, now, now)) ∧
      (rate_limit_gate now last_call).2.2 = (rate_limit_gate now last_call).2.1) ∧
    (∀ (last0 : ℚ) (arrivals : List ℚ),
      List.Chain' (fun a b => a + RATE_LIMIT_DELAY ≤ b)
        (issue_times last0 arrivals)) := by
  constructor
  · intro now last_call
    refine ⟨?_, ?_, ?_⟩
    · intro h
      have hlt : now - last_call < RATE_LIMIT_DELAY := by linarith
      simp [rate_limit_gate, hlt]
    · intro h
      have hge : ¬(now - last_call < RATE_LIMIT_DELAY) := by
        simp only [not_lt]
        linarith
      simp [rate_limit_gate, hge]
    · unfold rate_limit_gate
      by_cases h : now - last_call < RATE_LIMIT_DELAY <;> simp [h]
  · intro last0 arrivals
    induction arrivals generalizing last0 with
    | nil => simp [issue_times]
    | cons t ts ih =>
        rw [issue_times]
        rw [List.chain'_cons']
        refine ⟨?_, ih _⟩
        intro y hy
        cases ts with
        | nil => simp [issue_times] at hy
        | cons t2 ts2 =>
            rw [issue_times] at hy
            simp only [List.head?_cons, Option.mem_def, Option.some.injEq] at hy
            subst hy
            exact rate_limit_gate_spacing t2 _

/-- Witness for C7: an arrival half a second after the previous call
suspends for exactly half a second and is issued at clock 1; an arrival
five seconds later proceeds immediately. -/
theorem C7_rate_limiter_spacing_witness :
    rate_limit_gate (1/2 : ℚ) 0 = (1/2, 1, 1) ∧
    rate_limit_gate (5 : ℚ) 0 = (0, 5, 5) := by
  have h1 := (C7_rate_limiter_spacing.1 (1/2 : ℚ) 0).1
    (by norm_num [RATE_LIMIT_DELAY])
  have h2 := (C7_rate_limiter_spacing.1 (5 : ℚ) 0).2.1
    (by norm_num [RATE_LIMIT_DELAY])
  constructor
  · rw [h1]
    norm_num [RATE_LIMIT_DELAY]
  · rw [h2]

/-- C8: the fallback generator is a total function returning the same
non-empty canned text for every argument; in particular a request for the
"fr" locale receives the default text, and no call can fail. -/
theorem C8_fallback_total (locale : String) :
    get_fallback_response locale ≠ "" ∧
    get_fallback_response locale = get_fallback_response "en" ∧
    get_fallback_response "fr" = get_fallback_response "en" := by
  refine ⟨?_, rfl, rfl⟩
  exact (by decide : get_fallback_response "default" ≠ "")

/-- C10: when the agent is unavailable, every call raises the generic
"OpenAI agent not available" error: the cache is left untouched and never
served (the availability check precedes the lookup), no remote call is
made, exactly one attempt happens with no delay, and the error message is
NonRetryable. -/
theorem C10_agent_unavailable (query : String) (s : OrchState) :
    (get_ai_response none query s).result =
      Except.error (PyError.exc "OpenAI agent not available") ∧
    (get_ai_response none query s).state.cache = s.cache ∧
    (get_ai_response none query s).state.remote_calls = s.remote_calls ∧
    (get_ai_response none query s).attempts = 1 ∧
    (get_ai_response none query s).delays = [] ∧
    isRetryable "OpenAI agent not available" = false := by
  have hmsg : isRetryable "OpenAI agent not available" = false := by decide
  have h : get_ai_response none query s =
      ⟨Except.error (PyError.exc "OpenAI agent not available"),
       { s with now := (rate_limit_gate s.now s.last_call).2.1,
                last_call := (rate_limit_gate s.now s.last_call).2.2 }, [], 1⟩ := by
    show retry_on_quota_error orchSleep (get_ai_response_raw none query)
        { s with now := (rate_limit_gate s.now s.last_call).2.1,
                 last_call := (rate_limit_gate s.now s.last_call).2.2 } = _
    exact retryGo_step_nonretryable orchSleep (get_ai_response_raw none query)
      MAX_RETRIES RETRY_DELAY 0 2 none _ "OpenAI agent not available" _ rfl hmsg
  rw [h]
  exact ⟨rfl, rfl, rfl, rfl, rfl, hmsg⟩

/-- C9: a failure is classified retryable exactly when the lowercased
message contains one of the substrings "quota", "rate limit",
"too many requests" or "insufficient quota": the first attempt is retried
iff that textual test passes, and a non-quota error whose message merely
mentions "quota" (a disk-quota message) passes it. -/
theorem C9_retry_classification (f : Nat → Except String String) (msg : String)
    (hop : f 0 = Except.error msg) :
    (isRetryable msg =
      (msgContains msg "quota" ||
        (msgContains msg "rate limit" ||
          (msgContains msg "too many requests" ||
            msgContains msg "insufficient quota")))) ∧
    (2 ≤ (retry_policy f).attempts ↔ isRetryable msg = true) ∧
    isRetryable "Disk quota exceeded on /home" = true := by
  refine ⟨?_, ?_, by decide⟩
  · simp [isRetryable, quotaTerms]
  · constructor
    · intro h2
      by_cases hret : isRetryable msg = true
      · exact hret
      · exfalso
        have hmsg : isRetryable msg = false := by
          simpa using hret
        have hstep := retryGo_step_nonretryable (fun _ n => n)
          (fun n => (f n, n + 1)) MAX_RETRIES RETRY_DELAY 0 2 none 0 msg 1
          (by simp [hop]) hmsg
        have hpol : retry_policy f =
            ⟨Except.error (PyError.exc msg), 1, [], 1⟩ := hstep
        rw [hpol] at h2
        simp at h2
    · intro hret
      have hstep := retryGo_step_retry (fun _ n => n)
        (fun n => (f n, n + 1)) MAX_RETRIES RETRY_DELAY 0 2 none 0 msg 1
        (by simp [hop]) hret (by decide)
      have hpol : retry_policy f =
          let rest := retryGo (fun _ n => n) (fun n => (f n, n + 1))
            MAX_RETRIES RETRY_DELAY 1 2 (some msg) 1
          ⟨rest.result, rest.state, RETRY_DELAY * 2 ^ 0 :: rest.delays,
           rest.attempts + 1⟩ := hstep
      rw [hpol]
      have hpos := retryGo_attempts_pos (fun _ n => n) (fun n => (f n, n + 1))
        MAX_RETRIES RETRY_DELAY 2 1 (some msg) 1 (by omega)
      dsimp only
      omega

/-- Witness for C9: an agent failing with the filesystem message
"Disk quota exceeded on /home" is retried (at least two attempts). -/
theorem C9_retry_classification_witness :
    2 ≤ (retry_policy (fun _ => Except.error "Disk quota exceeded on /home")).attempts := by
  have h := C9_retry_classification
    (fun _ => Except.error "Disk quota exceeded on /home")
    "Disk quota exceeded on /home" rfl
  exact h.2.1.mpr h.2.2

/-- C1 counterexample: in a world with a fresh, non-empty cache entry for
the query and a call arriving inside the rate-limit window, the cached
value is returned with no remote call and no retry delay, yet the clock
advances by the full 1-second rate-limiter wait — the `rate_limit`
decorator is outermost, so the Cache Store lookup does NOT precede the
Rate Limiter gate and a cache hit can still suspend there. -/
theorem C1_cache_hit_still_gated :
    (get_ai_response freshAgent "q" hitState).result = Except.ok "resp" ∧
    (get_ai_response freshAgent "q" hitState).state.remote_calls = 0 ∧
    (get_ai_response freshAgent "q" hitState).delays = [] ∧
    (rate_limit_gate hitState.now hitState.last_call).1 = 1 ∧
    (get_ai_response freshAgent "q" hitState).state.now = hitState.now + 1 := by
  have hne : ("resp" : String) ≠ "" := by decide
  refine ⟨?_, ?_, ?_, ?_, ?_⟩ <;>
    norm_num [get_ai_response, retry_on_quota_error, retryGo, get_ai_response_raw,
      hitState, freshAgent, rate_limit_gate, get_from_cache, get_cache_key,
      truthy, hne, RATE_LIMIT_DELAY, CACHE_EXPIRE_TIME, List.lookup]

/-- C1 amended: the rate-limiter gate runs first and records the post-wait
clock; when the cache entry for the query is still fresh at the gated
issue time and its value is non-empty (so the `if cached_response:`
truthiness test of line 160 passes), the cached value is returned with no
remote call and no retry delay — but only after any rate-limiter
suspension. -/
theorem C1_amended_gate_then_cache (chat : Nat → Except String String)
    (query : String) (s : OrchState) (ts : ℚ) (resp : String)
    (hl : List.lookup (get_cache_key query) s.cache = some (ts, resp))
    (hfresh : (rate_limit_gate s.now s.last_call).2.1 - ts < CACHE_EXPIRE_TIME)
    (hresp : resp ≠ "") :
    get_ai_response (some chat) query s =
      ⟨Except.ok resp,
       { s with now := (rate_limit_gate s.now s.last_call).2.1,
                last_call := (rate_limit_gate s.now s.last_call).2.2 }, [], 1⟩ ∧
    (rate_limit_gate s.now s.last_call).2.2 =
      (rate_limit_gate s.now s.last_call).2.1 := by
  constructor
  · show retry_on_quota_error orchSleep (get_ai_response_raw (some chat) query)
        { s with now := (rate_limit_gate s.now s.last_call).2.1,
                 last_call := (rate_limit_gate s.now s.last_call).2.2 } = _
    have hop : get_ai_response_raw (some chat) query
        { s with now := (rate_limit_gate s.now s.last_call).2.1,
                 last_call := (rate_limit_gate s.now s.last_call).2.2 } =
        (Except.ok resp,
         { s with now := (rate_limit_gate s.now s.last_call).2.1,
                  last_call := (rate_limit_gate s.now s.last_call).2.2 }) := by
      unfold get_ai_response_raw get_from_cache
      dsimp only
      rw [hl]
      simp [hfresh, truthy, hresp]
    exact retryGo_step_ok orchSleep (get_ai_response_raw (some chat) query)
      MAX_RETRIES RETRY_DELAY 0 2 none _ resp _ hop
  · unfold rate_limit_gate
    by_cases h : s.now - s.last_call < RATE_LIMIT_DELAY <;> simp [h]

/-- Witness for the amended C1: the concrete gated cache hit returns
"resp" at clock 101 after the 1-second wait, with no remote call. -/
theorem C1_amended_gate_then_cache_witness :
    get_ai_response freshAgent "q" hitState =
      ⟨Except.ok "resp", ⟨101, 101, [("q", 99, "resp")], 0⟩, [], 1⟩ := by
  have hgate : rate_limit_gate hitState.now hitState.last_call = (1, 101, 101) := by
    norm_num [rate_limit_gate, RATE_LIMIT_DELAY, hitState]
  have h := C1_amended_gate_then_cache (fun _ => Except.ok "fresh") "q" hitState
    99 "resp" rfl (by rw [hgate]; norm_num [CACHE_EXPIRE_TIME]) (by decide)
  rw [show freshAgent = some (fun _ => Except.ok "fresh") from rfl, h.1, hgate]
  rfl

/-- Evaluating the full pipeline on the always-failing agent: the
non-quota error propagates out of `get_ai_response` as a generic
exception after a single attempt. -/
theorem connRefused_result :
    get_ai_response connRefusedAgent main_query initState =
      ⟨Except.error (PyError.exc "connection refused"),
       ⟨1000, 1000, [], 1⟩, [], 1⟩ := by
  have hmsg : isRetryable "connection refused" = false := by decide
  have hgate : rate_limit_gate initState.now initState.last_call =
      (0, 1000, 1000) := by
    norm_num [rate_limit_gate, RATE_LIMIT_DELAY, initState]
  show retry_on_quota_error orchSleep
      (get_ai_response_raw connRefusedAgent main_query)
      { initState with
          now := (rate_limit_gate initState.now initState.last_call).2.1,
          last_call := (rate_limit_gate initState.now initState.last_call).2.2 } = _
  rw [hgate]
  exact retryGo_step_nonretryable orchSleep
    (get_ai_response_raw connRefusedAgent main_query) MAX_RETRIES RETRY_DELAY
    0 2 none _ "connection refused" _ rfl hmsg

/-- C2 counterexample: a NonRetryable failure ("connection refused",
which is not `QuotaExceededError`) also reaches the fallback generator —
`main` catches the generic exception, reports it, and still prints a
canned fallback response — so the fallback path is not exclusive to
quota exhaustion. -/
theorem C2_nonquota_error_gets_fallback :
    (get_ai_response connRefusedAgent main_query initState).result =
      Except.error (PyError.exc "connection refused") ∧
    run_main connRefusedAgent initState =
      MainOutcome.errorFallback "connection refused"
        (get_fallback_response main_query) ∧
    fallbackInvoked (run_main connRefusedAgent initState) = true := by
  have hres : (get_ai_response connRefusedAgent main_query initState).result =
      Except.error (PyError.exc "connection refused") := by
    rw [connRefused_result]
  have hmain : run_main connRefusedAgent initState =
      MainOutcome.errorFallback "connection refused"
        (get_fallback_response main_query) := by
    show main_handle (get_ai_response connRefusedAgent main_query initState).result
        main_query = _
    rw [hres]
    rfl
  exact ⟨hres, hmain, by rw [hmain]; rfl⟩

/-- C2 amended: `main` invokes the Fallback Generator for every failed
call, not only on `QuotaExceededError`: quota exhaustion selects the
quota-fallback branch, any other error selects the branch that reports
the message and also produces the fallback, and only a success skips the
fallback. -/
theorem C2_amended_fallback_on_every_failure
    (agent : Option (Nat → Except String String)) (s : OrchState) :
    (fallbackInvoked (run_main agent s) = true ↔
      ∃ e, (get_ai_response agent main_query s).result = Except.error e) ∧
    (∀ qmsg, (get_ai_response agent main_query s).result =
        Except.error (PyError.quotaExceeded qmsg) →
      run_main agent s =
        MainOutcome.quotaFallback (get_fallback_response main_query)) ∧
    (∀ emsg, (get_ai_response agent main_query s).result =
        Except.error (PyError.exc emsg) →
      run_main agent s =
        MainOutcome.errorFallback emsg (get_fallback_response main_query)) ∧
    (∀ r, (get_ai_response agent main_query s).result = Except.ok r →
      run_main agent s = MainOutcome.aiResponse r) := by
  have hrm : run_main agent s =
      main_handle (get_ai_response agent main_query s).result main_query := rfl
  refine ⟨?_, ?_, ?_, ?_⟩
  · rw [hrm]
    rcases h : (get_ai_response agent main_query s).result with e | v
    · rcases e with emsg | qmsg <;> simp [main_handle, fallbackInvoked]
    · simp [main_handle, fallbackInvoked]
  · intro qmsg hq
    rw [hrm, hq]
    rfl
  · intro emsg he
    rw [hrm, he]
    rfl
  · intro r hv
    rw [hrm, hv]
    rfl

/-- Witness for the amended C2: the "connection refused" run takes the
error-fallback branch and the fallback generator is invoked. -/
theorem C2_amended_fallback_on_every_failure_witness :
    run_main connRefusedAgent initState =
      MainOutcome.errorFallback "connection refused"
        (get_fallback_response main_query) ∧
    fallbackInvoked (run_main connRefusedAgent initState) = true := by
  have hres : (get_ai_response connRefusedAgent main_query initState).result =
      Except.error (PyError.exc "connection refused") := by
    rw [connRefused_result]
  have h := C2_amended_fallback_on_every_failure connRefusedAgent initState
  exact ⟨h.2.2.1 "connection refused" hres, h.1.mpr ⟨_, hres⟩⟩
